import Mathlib

/-!
# Hydro-bill-hub: shallow embedding and verification

This file embeds the data model and operations of the water-billing portal
(the Supabase schema in the SQL migration, the `AdminDashboard` component and
the `CustomerDashboard` component) and proves the specification's claims
about them.

Modelling conventions:
* Every `DECIMAL(10,2)` column (meter readings, rate, money amounts) is an
  `Int` counting hundredths ("cents"): the value `150.00` is `15000`.
  This makes two-fractional-digit exactness a property of the representation,
  matching the column type.  Storing a value with more than two fractional
  digits into such a column rounds half away from zero, which is what
  PostgreSQL `numeric(10,2)` does; `roundDiv100` below performs that rounding
  when the generated `amount` column divides the cents-squared product by 100.
* `uuid` identifiers are `Nat`; the server-side `gen_random_uuid()` default is
  modelled by a `nextId` counter in the store that each insert consumes.
* Timestamps (`created_at`, `updated_at`, `payment_date`) are `Nat`; the
  `NOW()` defaults and the `update_updated_at` triggers take the current time
  as an explicit `now` argument.
* Status and priority columns stay `String`s, as in the TypeScript code,
  which compares them to string literals.
* Each network write that the client code can observe failing is given an
  explicit `Bool` outcome flag; the client's `throw`/ignore behaviour is
  reproduced from the source.
-/

/-- Round `n` (a value in units of 1/100 cent) to cents, half away from zero:
the rounding PostgreSQL applies when storing a scale-4 product into a
`numeric(10,2)` generated column. -/
def roundDiv100 (n : Int) : Int :=
  if 0 ≤ n then ((n.toNat + 50) / 100 : Nat)
  else -(((-n).toNat + 50) / 100 : Nat)

/-- Schema default for `bills.rate_per_unit`: `DECIMAL(10,2) DEFAULT 50.00`,
i.e. 5000 cents. -/
def defaultRatePerUnit : Int := 5000

/-- A row of `public.profiles` (the fields the dashboards read). -/
structure Profile where
  id : Nat
  full_name : String
  phone_number : String
  meter_number : String
  address : String
  is_admin : Bool
deriving DecidableEq, Repr

/-- A row of `public.bills`.  The generated columns `units_consumed` and
`amount` are not stored fields: they are the functions `Bill.units_consumed`
and `Bill.amount` below, which is exactly the `GENERATED ALWAYS AS ... STORED`
semantics (never independently settable). -/
structure Bill where
  id : Nat
  customer_id : Nat
  meter_number : String
  previous_reading : Int
  current_reading : Int
  rate_per_unit : Int
  bill_month : String
  due_date : String
  status : String
  created_at : Nat
  updated_at : Nat
deriving DecidableEq, Repr

/-- Generated column: `units_consumed DECIMAL(10,2) GENERATED ALWAYS AS
(current_reading - previous_reading) STORED`.  The difference of two
two-decimal values is a two-decimal value, so no rounding occurs. -/
def Bill.units_consumed (b : Bill) : Int :=
  b.current_reading - b.previous_reading

/-- Generated column: `amount DECIMAL(10,2) GENERATED ALWAYS AS
((current_reading - previous_reading) * rate_per_unit) STORED`.  The product
of cents by cents is in units of 1/100 cent; storing it in a
`numeric(10,2)` column divides by 100, rounding half away from zero. -/
def Bill.amount (b : Bill) : Int :=
  roundDiv100 ((b.current_reading - b.previous_reading) * b.rate_per_unit)

/-- A row of `public.payments`. -/
structure Payment where
  id : Nat
  bill_id : Nat
  customer_id : Nat
  amount : Int
  payment_method : String
  transaction_id : String
  payment_date : Nat
  status : String
deriving DecidableEq, Repr

/-- A row of `public.complaints`. -/
structure Complaint where
  id : Nat
  customer_id : Nat
  subject : String
  description : String
  status : String
  priority : String
  admin_response : Option String
  created_at : Nat
  updated_at : Nat
deriving DecidableEq, Repr

/-- The external store: the three tables the dashboards write, plus the
counter that stands in for server-generated row identifiers. -/
structure Store where
  nextId : Nat
  bills : List Bill
  payments : List Payment
  complaints : List Complaint
deriving DecidableEq, Repr

/-- Helper: if `100 ∣ n` then rounding `n` down to cents is exact division. -/
theorem roundDiv100_of_dvd (n : Int) (h : (100 : Int) ∣ n) :
    100 * roundDiv100 n = n := by
  obtain ⟨k, rfl⟩ := h
  unfold roundDiv100
  by_cases hk : 0 ≤ k
  · rw [if_pos (by positivity)]
    have h1 : (100 * k).toNat = 100 * k.toNat := by omega
    have h2 : (100 * k.toNat + 50) / 100 = k.toNat := by omega
    rw [h1, h2]
    omega
  · rw [if_neg (by omega)]
    have h1 : (-(100 * k)).toNat = 100 * (-k).toNat := by omega
    have h2 : (100 * (-k).toNat + 50) / 100 = (-k).toNat := by omega
    rw [h1, h2]
    omega

/-- C1: for every bill with previous reading `p`, current reading `c` and rate
per unit `r` (all counted in hundredths, i.e. exact to two fractional digits),
the stored generated columns satisfy `units_consumed = c - p`, and whenever the
product `(c - p) * r` is itself representable at two fractional digits
(`100 ∣ (c - p) * r` in cents-squared units) the stored `amount` equals
`(c - p) * r` exactly.  In particular (see the witness) for `p = 100.00`,
`c = 150.00` and the default rate `50.00`, `units_consumed = 50.00` and
`amount = 2500.00`. -/
theorem bill_generated_columns (b : Bill)
    (h : (100 : Int) ∣ (b.current_reading - b.previous_reading) * b.rate_per_unit) :
    b.units_consumed = b.current_reading - b.previous_reading ∧
    100 * b.amount = (b.current_reading - b.previous_reading) * b.rate_per_unit := by
  refine ⟨rfl, ?_⟩
  exact roundDiv100_of_dvd _ h

/-- Concrete scenario for C1: previous = 100.00, current = 150.00, default
rate 50.00 give `units_consumed` = 50.00 (5000 cents) and `amount` = 2500.00
(250000 cents). -/
def scenarioBill : Bill :=
  { id := 1, customer_id := 7, meter_number := "M-001",
    previous_reading := 10000, current_reading := 15000,
    rate_per_unit := defaultRatePerUnit, bill_month := "January 2024",
    due_date := "2024-02-01", status := "pending",
    created_at := 0, updated_at := 0 }

theorem bill_generated_columns_witness :
    ((100 : Int) ∣ (scenarioBill.current_reading - scenarioBill.previous_reading)
        * scenarioBill.rate_per_unit) ∧
    scenarioBill.units_consumed = 5000 ∧ scenarioBill.amount = 250000 := by
  refine ⟨by decide, ?_, ?_⟩
  · exact (bill_generated_columns scenarioBill (by decide)).1.trans (by decide)
  · have h := (bill_generated_columns scenarioBill (by decide)).2
    have h2 : (scenarioBill.current_reading - scenarioBill.previous_reading)
        * scenarioBill.rate_per_unit = 25000000 := by decide
    omega

/-! ## Store operations (client-issued writes, from the dashboard components) -/

/-- The admin "Create New Bill" form, after `parseFloat` of the reading
fields (cents).  `createBill` sends exactly these six fields; `rate_per_unit`,
`status`, `id` and the timestamps are filled by the store's defaults. -/
structure BillInput where
  customer_id : Nat
  meter_number : String
  previous_reading : Int
  current_reading : Int
  bill_month : String
  due_date : String
deriving DecidableEq, Repr

/-- The bill row the store creates for a `createBill` insert: the six
client-supplied fields plus the defaults `rate_per_unit = 50.00`,
`status = 'pending'`, server id and `NOW()` timestamps. -/
def newBillRow (rid : Nat) (inp : BillInput) (now : Nat) : Bill :=
  { id := rid, customer_id := inp.customer_id, meter_number := inp.meter_number,
    previous_reading := inp.previous_reading,
    current_reading := inp.current_reading,
    rate_per_unit := defaultRatePerUnit,
    bill_month := inp.bill_month, due_date := inp.due_date,
    status := "pending", created_at := now, updated_at := now }

/-- Embeds `AdminDashboard.createBill`: one insert into `bills`, with no guard on the
readings — the form values are passed through unchanged. -/
def createBill (s : Store) (inp : BillInput) (now : Nat) : Store :=
  { s with nextId := s.nextId + 1, bills := s.bills ++ [newBillRow s.nextId inp now] }

/-- Embeds `UPDATE bills SET status = st WHERE id = billId`, with the
`update_bills_updated_at` trigger setting `updated_at = NOW()`. -/
def updateBillStatus (s : Store) (billId : Nat) (st : String) (now : Nat) : Store :=
  { s with bills := s.bills.map (fun b =>
      if b.id = billId then { b with status := st, updated_at := now } else b) }

/-- The customer "Make Payment" form after parsing (cents amount), as sent by
`makePayment`: `bill_id`, `customer_id`, `amount`, `payment_method`,
`transaction_id`. -/
structure PaymentInput where
  bill_id : Nat
  amount : Int
  payment_method : String
  transaction_id : String
deriving DecidableEq, Repr

/-- The payment row the store creates for a `makePayment` insert: the
client-supplied fields plus the defaults `payment_date = NOW()` and
`status = 'completed'`. -/
def newPaymentRow (rid : Nat) (profileId : Nat) (inp : PaymentInput) (now : Nat) : Payment :=
  { id := rid, bill_id := inp.bill_id, customer_id := profileId,
    amount := inp.amount, payment_method := inp.payment_method,
    transaction_id := inp.transaction_id, payment_date := now,
    status := "completed" }

/-- Result of one `makePayment` interaction: the store afterwards, whether the
success toast was shown, and whether the payment form was reset (in the source
these happen together on the success path). -/
structure PaymentOutcome where
  store : Store
  reportedSuccess : Bool
  formCleared : Bool
deriving DecidableEq, Repr

/-- Embeds `CustomerDashboard.makePayment`: (a) insert a payment row; if that insert
errors, throw (nothing else runs, failure is reported).  Otherwise (b) issue
`UPDATE bills SET status = 'paid' WHERE id = bill_id` — whose result is NOT
inspected (`await` without checking `error`) — then report success and clear
the form.  `insertOk` and `updateOk` are the outcomes of the two independent
network writes. -/
def makePayment (s : Store) (profileId : Nat) (inp : PaymentInput) (now : Nat)
    (insertOk updateOk : Bool) : PaymentOutcome :=
  if insertOk then
    let s1 : Store :=
      { s with nextId := s.nextId + 1,
               payments := s.payments ++ [newPaymentRow s.nextId profileId inp now] }
    let s2 : Store := if updateOk then updateBillStatus s1 inp.bill_id "paid" now else s1
    { store := s2, reportedSuccess := true, formCleared := true }
  else
    { store := s, reportedSuccess := false, formCleared := false }

/-- The customer complaint form state: `subject`, `description`, `priority`. -/
structure ComplaintForm where
  subject : String
  description : String
  priority : String
deriving DecidableEq, Repr

/-- The initial (and post-submit reset) complaint form state: priority
defaults to `'medium'`. -/
def initialComplaintData : ComplaintForm :=
  { subject := "", description := "", priority := "medium" }

/-- The complaint row the store creates for a `submitComplaint` insert: the
client-supplied `customer_id`, `subject`, `description`, `priority`, plus the
defaults `status = 'open'`, `admin_response = NULL`, server id and `NOW()`
timestamps. -/
def newComplaintRow (rid : Nat) (profileId : Nat) (form : ComplaintForm) (now : Nat) :
    Complaint :=
  { id := rid, customer_id := profileId, subject := form.subject,
    description := form.description, status := "open",
    priority := form.priority, admin_response := none,
    created_at := now, updated_at := now }

/-- Embeds `CustomerDashboard.submitComplaint`: one insert into `complaints`. -/
def submitComplaint (s : Store) (profileId : Nat) (form : ComplaintForm) (now : Nat) :
    Store :=
  { s with nextId := s.nextId + 1,
           complaints := s.complaints ++ [newComplaintRow s.nextId profileId form now] }

/-- The per-row effect of `AdminDashboard.updateComplaintStatus`: on the row
matching the id, set `status` and `admin_response` (the client's partial
update) and `updated_at` (the `update_complaints_updated_at` trigger); any
other row is untouched. -/
def applyAdminUpdate (complaintId : Nat) (st response : String) (now : Nat)
    (c : Complaint) : Complaint :=
  if c.id = complaintId then
    { c with status := st, admin_response := some response, updated_at := now }
  else c

/-- Embeds `AdminDashboard.updateComplaintStatus`: `UPDATE complaints SET status,
admin_response WHERE id = complaintId` (plus the `updated_at` trigger). -/
def updateComplaintStatus (s : Store) (complaintId : Nat) (st response : String)
    (now : Nat) : Store :=
  { s with complaints := s.complaints.map (applyAdminUpdate complaintId st response now) }

/-! ## Reads (fetches and derived screen figures) -/

/-- Embeds `ORDER BY <key> DESC`: the relation "later or equal timestamp first". -/
def byDesc {α : Type} (key : α → Nat) : α → α → Prop :=
  fun a b => key b ≤ key a

instance {α : Type} (key : α → Nat) : DecidableRel (byDesc key) :=
  fun a b => Nat.decLe (key b) (key a)

instance {α : Type} (key : α → Nat) : IsTotal α (byDesc key) :=
  ⟨fun a b => Nat.le_total (key b) (key a)⟩

instance {α : Type} (key : α → Nat) : IsTrans α (byDesc key) :=
  ⟨fun _ _ _ h1 h2 => Nat.le_trans h2 h1⟩

/-- Embeds the `CustomerDashboard.fetchData` bills query:
`from('bills').select('*').eq('customer_id', profile.id)
.order('created_at', ascending: false)`. -/
def fetchCustomerBills (s : Store) (profileId : Nat) : List Bill :=
  List.insertionSort (byDesc Bill.created_at)
    (s.bills.filter (fun b => b.customer_id = profileId))

/-- Embeds the `CustomerDashboard.fetchData` payments query:
`from('payments').select('*').eq('customer_id', profile.id)
.order('payment_date', ascending: false)`. -/
def fetchCustomerPayments (s : Store) (profileId : Nat) : List Payment :=
  List.insertionSort (byDesc Payment.payment_date)
    (s.payments.filter (fun p => p.customer_id = profileId))

/-- Embeds the `CustomerDashboard.fetchData` complaints query:
`from('complaints').select('*').eq('customer_id', profile.id)
.order('created_at', ascending: false)`. -/
def fetchCustomerComplaints (s : Store) (profileId : Nat) : List Complaint :=
  List.insertionSort (byDesc Complaint.created_at)
    (s.complaints.filter (fun c => c.customer_id = profileId))

/-- The four figures on the admin dashboard header cards. -/
structure AdminStats where
  totalCustomers : Nat
  totalBills : Nat
  totalRevenue : Int
  pendingComplaints : Nat
deriving DecidableEq, Repr

/-- Embeds `AdminDashboard.stats`: `customers.length`, `bills.length`,
`payments.reduce((sum, payment) => sum + payment.amount, 0)`,
`complaints.filter(c => c.status === 'open').length`. -/
def stats (customers : List Profile) (bills : List Bill)
    (payments : List Payment) (complaints : List Complaint) : AdminStats :=
  { totalCustomers := customers.length,
    totalBills := bills.length,
    totalRevenue := payments.foldl (fun sum payment => sum + payment.amount) 0,
    pendingComplaints := (complaints.filter (fun c => c.status = "open")).length }

/-- Embeds `CustomerDashboard.pendingBills`:
`bills.filter(bill => bill.status === 'pending')`.  This list also feeds the
"Make Payment" dialog's bill selector, so only its members can be selected
for payment. -/
def pendingBills (bills : List Bill) : List Bill :=
  bills.filter (fun bill => bill.status = "pending")

/-- Embeds `CustomerDashboard.totalOutstanding`:
`pendingBills.reduce((sum, bill) => sum + bill.amount, 0)`. -/
def totalOutstanding (bills : List Bill) : Int :=
  (pendingBills bills).foldl (fun sum bill => sum + bill.amount) 0

/-! ## Claims about the write operations -/

/-- C2: `makePayment` is the sequence "(a) insert a payment row, then (b) set
the bill's status to `'paid'`" (see the definition of `makePayment`), and the
two writes are not atomic: in the execution where the insert succeeds
(`insertOk = true`) and the status update fails (`updateOk = false`), the
resulting store contains the recorded payment row while the referenced bill
still has status `'pending'`. -/
theorem makePayment_nonatomic (s : Store) (profileId : Nat) (inp : PaymentInput)
    (now : Nat) (b : Bill) (hb : b ∈ s.bills) (hid : b.id = inp.bill_id)
    (hst : b.status = "pending") :
    newPaymentRow s.nextId profileId inp now ∈
      (makePayment s profileId inp now true false).store.payments ∧
    b ∈ (makePayment s profileId inp now true false).store.bills ∧
    b.status = "pending" := by
  unfold makePayment
  simp only [if_true, if_false, Bool.false_eq_true]
  exact ⟨List.mem_append_right _ (List.mem_singleton_self _), hb, hst⟩

/-- A store holding a single pending bill (the C1 scenario bill), used to
instantiate the hypothesis-bearing theorems. -/
def sampleStore : Store :=
  { nextId := 2, bills := [scenarioBill], payments := [], complaints := [] }

/-- A concrete payment form submission against `scenarioBill`. -/
def samplePaymentInput : PaymentInput :=
  { bill_id := 1, amount := 250000, payment_method := "mpesa",
    transaction_id := "TX-123" }

theorem makePayment_nonatomic_witness :
    newPaymentRow sampleStore.nextId 7 samplePaymentInput 9 ∈
      (makePayment sampleStore 7 samplePaymentInput 9 true false).store.payments ∧
    scenarioBill ∈ (makePayment sampleStore 7 samplePaymentInput 9 true false).store.bills ∧
    scenarioBill.status = "pending" :=
  makePayment_nonatomic sampleStore 7 samplePaymentInput 9 scenarioBill
    (by decide) (by decide) (by decide)

/-- C10: `makePayment` never inspects the outcome of the bill-status update:
whenever the payment insert succeeds, it reports success and clears the
payment form, for both outcomes of the subsequent `'paid'` update. -/
theorem makePayment_ignores_update_result (s : Store) (profileId : Nat)
    (inp : PaymentInput) (now : Nat) (updateOk : Bool) :
    (makePayment s profileId inp now true updateOk).reportedSuccess = true ∧
    (makePayment s profileId inp now true updateOk).formCleared = true := by
  unfold makePayment
  simp

/-- C3: `createBill` issues the insert unchanged for every input — including
one whose current reading is strictly below its previous reading; no
client-side or store-side validation rejects it — and the stored bill then has
negative `units_consumed` and negative `amount`. -/
theorem createBill_no_validation (s : Store) (inp : BillInput) (now : Nat)
    (h : inp.current_reading < inp.previous_reading) :
    (createBill s inp now).bills = s.bills ++ [newBillRow s.nextId inp now] ∧
    (newBillRow s.nextId inp now).units_consumed < 0 ∧
    (newBillRow s.nextId inp now).amount < 0 := by
  refine ⟨rfl, ?_, ?_⟩
  · simp only [Bill.units_consumed, newBillRow]
    omega
  · simp only [Bill.amount, newBillRow, defaultRatePerUnit, roundDiv100]
    have h1 : (inp.current_reading - inp.previous_reading) * 5000 ≤ -5000 := by
      have h2 : inp.current_reading - inp.previous_reading ≤ -1 := by omega
      nlinarith
    rw [if_neg (by omega)]
    omega

/-- A bill-creation input whose current reading (50.00) is below its previous
reading (100.00). -/
def negBillInput : BillInput :=
  { customer_id := 7, meter_number := "M-001", previous_reading := 10000,
    current_reading := 5000, bill_month := "February 2024",
    due_date := "2024-03-01" }

theorem createBill_no_validation_witness :
    negBillInput.current_reading < negBillInput.previous_reading ∧
    ((createBill sampleStore negBillInput 3).bills
        = sampleStore.bills ++ [newBillRow sampleStore.nextId negBillInput 3] ∧
      (newBillRow sampleStore.nextId negBillInput 3).units_consumed < 0 ∧
      (newBillRow sampleStore.nextId negBillInput 3).amount < 0) :=
  ⟨by decide, createBill_no_validation sampleStore negBillInput 3 (by decide)⟩

/-- C4: every complaint created through `submitComplaint` has status `'open'`
(the store default — the client never sends a status) and priority equal to
the submitter's chosen priority; the form's initial and post-submit priority
is `'medium'`, so that is what an unchanged form submits. -/
theorem submitComplaint_defaults (s : Store) (profileId : Nat)
    (form : ComplaintForm) (now : Nat) :
    (submitComplaint s profileId form now).complaints
      = s.complaints ++ [newComplaintRow s.nextId profileId form now] ∧
    (newComplaintRow s.nextId profileId form now).status = "open" ∧
    (newComplaintRow s.nextId profileId form now).priority = form.priority ∧
    initialComplaintData.priority = "medium" :=
  ⟨rfl, rfl, rfl, rfl⟩

/-! ## Claims about complaint updates and the dashboard figures -/

/-- An open complaint stored with `updated_at = 0`. -/
def sampleComplaint : Complaint :=
  { id := 1, customer_id := 7, subject := "Low pressure",
    description := "Water pressure dropped", status := "open",
    priority := "medium", admin_response := none,
    created_at := 0, updated_at := 0 }

/-- A second complaint, already in progress, with a different id. -/
def otherComplaint : Complaint :=
  { id := 2, customer_id := 8, subject := "Billing query",
    description := "Question about last bill", status := "in_progress",
    priority := "low", admin_response := none,
    created_at := 1, updated_at := 1 }

/-- A store holding just `sampleComplaint`. -/
def complaintStore : Store :=
  { nextId := 3, bills := [], payments := [], complaints := [sampleComplaint] }

/-- C5 counterexample: updating `sampleComplaint` (stored with
`updated_at = 0`) to `'resolved'` at time 5 writes the status and the
response, but also changes the complaint's `updated_at` field (the
`update_complaints_updated_at` trigger sets it to `NOW()`), so it is false
that every field other than `status` and `admin_response` is left
unchanged. -/
theorem updateComplaintStatus_changes_updated_at :
    (updateComplaintStatus complaintStore 1 "resolved" "Flushed the main" 5).complaints
      = [{ id := 1, customer_id := 7, subject := "Low pressure",
           description := "Water pressure dropped", status := "resolved",
           priority := "medium", admin_response := some "Flushed the main",
           created_at := 0, updated_at := 5 }] ∧
    sampleComplaint.updated_at ≠ 5 := by
  exact ⟨by decide, by decide⟩

/-- C5 (amended): `updateComplaintStatus` updates, in a single write, exactly
the complaints matching the given id, setting their `status`,
`admin_response` and the trigger-maintained `updated_at`; every other field
of a matching complaint, every non-matching complaint, and the other tables
are unchanged. -/
theorem updateComplaintStatus_frame (s : Store) (i : Nat) (st resp : String)
    (now : Nat) :
    (updateComplaintStatus s i st resp now).bills = s.bills ∧
    (updateComplaintStatus s i st resp now).payments = s.payments ∧
    (updateComplaintStatus s i st resp now).nextId = s.nextId ∧
    (∀ k : Nat, (updateComplaintStatus s i st resp now).complaints[k]?
        = (s.complaints[k]?).map (applyAdminUpdate i st resp now)) ∧
    (∀ c : Complaint, c.id ≠ i → applyAdminUpdate i st resp now c = c) ∧
    (∀ c : Complaint, c.id = i →
        (applyAdminUpdate i st resp now c).status = st ∧
        (applyAdminUpdate i st resp now c).admin_response = some resp ∧
        (applyAdminUpdate i st resp now c).updated_at = now ∧
        (applyAdminUpdate i st resp now c).id = c.id ∧
        (applyAdminUpdate i st resp now c).customer_id = c.customer_id ∧
        (applyAdminUpdate i st resp now c).subject = c.subject ∧
        (applyAdminUpdate i st resp now c).description = c.description ∧
        (applyAdminUpdate i st resp now c).priority = c.priority ∧
        (applyAdminUpdate i st resp now c).created_at = c.created_at) := by
  refine ⟨rfl, rfl, rfl, ?_, ?_, ?_⟩
  · intro k
    simp [updateComplaintStatus]
  · intro c hc
    simp [applyAdminUpdate, hc]
  · intro c hc
    simp [applyAdminUpdate, hc]

theorem updateComplaintStatus_frame_witness :
    applyAdminUpdate 1 "resolved" "done" 5 otherComplaint = otherComplaint ∧
    (applyAdminUpdate 1 "resolved" "done" 5 sampleComplaint).status = "resolved" ∧
    (applyAdminUpdate 1 "resolved" "done" 5 sampleComplaint).priority
      = sampleComplaint.priority :=
  ⟨(updateComplaintStatus_frame complaintStore 1 "resolved" "done" 5).2.2.2.2.1
      otherComplaint (by decide),
   ((updateComplaintStatus_frame complaintStore 1 "resolved" "done" 5).2.2.2.2.2
      sampleComplaint (by decide)).1,
   ((updateComplaintStatus_frame complaintStore 1 "resolved" "done" 5).2.2.2.2.2
      sampleComplaint (by decide)).2.2.2.2.2.2.2.1⟩

/-- Helper for C6: marking complaints matching id `i` as `'resolved'` removes
exactly the matching open complaints from the open count. -/
theorem length_filter_open_map_applyAdminUpdate (i : Nat) (resp : String)
    (now : Nat) (cs : List Complaint) :
    (cs.filter (fun c => c.status = "open")).length
      = ((cs.map (applyAdminUpdate i "resolved" resp now)).filter
          (fun c => c.status = "open")).length
        + (cs.filter (fun c => c.id = i && c.status = "open")).length := by
  induction cs with
  | nil => rfl
  | cons c cs ih =>
      by_cases hci : c.id = i <;> by_cases hco : c.status = "open" <;>
        simp [applyAdminUpdate, hci, hco, List.filter_cons] <;> omega

/-- C6: the admin dashboard's pending-complaints figure counts exactly the
complaints whose status is `'open'`: a complaint whose status is
`'in_progress'`, `'resolved'` or `'closed'` contributes nothing, and marking
complaints `'resolved'` through `updateComplaintStatus` removes the matching
open complaints from the count. -/
theorem pendingComplaints_counts_open (customers : List Profile)
    (bl : List Bill) (pay : List Payment) (s : Store) (i : Nat)
    (resp : String) (now : Nat) (c : Complaint)
    (hc : c.status = "in_progress" ∨ c.status = "resolved" ∨ c.status = "closed") :
    (stats customers bl pay s.complaints).pendingComplaints
      = (s.complaints.filter (fun d => d.status = "open")).length ∧
    (stats customers bl pay (c :: s.complaints)).pendingComplaints
      = (stats customers bl pay s.complaints).pendingComplaints ∧
    (stats customers bl pay
        (updateComplaintStatus s i "resolved" resp now).complaints).pendingComplaints
      = (stats customers bl pay s.complaints).pendingComplaints
        - (s.complaints.filter (fun d => d.id = i && d.status = "open")).length := by
  refine ⟨rfl, ?_, ?_⟩
  · have hne : ¬ (c.status = "open") := by
      rcases hc with h | h | h <;> rw [h] <;> simp
    simp [stats, List.filter_cons, hne]
  · have h := length_filter_open_map_applyAdminUpdate i resp now s.complaints
    simp only [stats, updateComplaintStatus]
    omega

theorem pendingComplaints_counts_open_witness :
    (stats [] [] [] complaintStore.complaints).pendingComplaints
      = (complaintStore.complaints.filter (fun d => d.status = "open")).length ∧
    (stats [] [] [] (otherComplaint :: complaintStore.complaints)).pendingComplaints
      = (stats [] [] [] complaintStore.complaints).pendingComplaints ∧
    (stats [] [] []
        (updateComplaintStatus complaintStore 1 "resolved" "done" 5).complaints).pendingComplaints
      = (stats [] [] [] complaintStore.complaints).pendingComplaints
        - (complaintStore.complaints.filter
            (fun d => d.id = 1 && d.status = "open")).length :=
  pendingComplaints_counts_open [] [] [] complaintStore 1 "done" 5 otherComplaint
    (Or.inl (by decide))

/-- C7: the customer-dashboard fetches are pure functions of the store state
(fetching twice with no intervening write returns the same rows in the same
order), each fetch returns exactly the rows whose `customer_id` equals the
viewing profile's id, and each result is ordered by its timestamp column
descending (`created_at` for bills and complaints, `payment_date` for
payments). -/
theorem fetch_filtered_sorted (s : Store) (profileId : Nat) :
    fetchCustomerBills s profileId = fetchCustomerBills s profileId ∧
    (∀ b ∈ fetchCustomerBills s profileId, b.customer_id = profileId) ∧
    List.Perm (fetchCustomerBills s profileId)
      (s.bills.filter (fun b => b.customer_id = profileId)) ∧
    List.Sorted (byDesc Bill.created_at) (fetchCustomerBills s profileId) ∧
    (∀ p ∈ fetchCustomerPayments s profileId, p.customer_id = profileId) ∧
    List.Perm (fetchCustomerPayments s profileId)
      (s.payments.filter (fun p => p.customer_id = profileId)) ∧
    List.Sorted (byDesc Payment.payment_date) (fetchCustomerPayments s profileId) ∧
    (∀ c ∈ fetchCustomerComplaints s profileId, c.customer_id = profileId) ∧
    List.Perm (fetchCustomerComplaints s profileId)
      (s.complaints.filter (fun c => c.customer_id = profileId)) ∧
    List.Sorted (byDesc Complaint.created_at) (fetchCustomerComplaints s profileId) := by
  refine ⟨rfl, ?_, ?_, ?_, ?_, ?_, ?_, ?_, ?_, ?_⟩
  · intro b hb
    rw [fetchCustomerBills, List.mem_insertionSort, List.mem_filter] at hb
    simpa using hb.2
  · exact List.perm_insertionSort _ _
  · exact List.sorted_insertionSort _ _
  · intro p hp
    rw [fetchCustomerPayments, List.mem_insertionSort, List.mem_filter] at hp
    simpa using hp.2
  · exact List.perm_insertionSort _ _
  · exact List.sorted_insertionSort _ _
  · intro c hc
    rw [fetchCustomerComplaints, List.mem_insertionSort, List.mem_filter] at hc
    simpa using hc.2
  · exact List.perm_insertionSort _ _
  · exact List.sorted_insertionSort _ _

theorem fetch_filtered_sorted_witness :
    scenarioBill ∈ fetchCustomerBills sampleStore 7 ∧
    scenarioBill.customer_id = 7 :=
  ⟨by decide, (fetch_filtered_sorted sampleStore 7).2.1 scenarioBill (by decide)⟩

/-- A bill that is unpaid but marked `'overdue'` rather than `'pending'`. -/
def overdueBill : Bill :=
  { id := 4, customer_id := 7, meter_number := "M-001",
    previous_reading := 5000, current_reading := 10000,
    rate_per_unit := defaultRatePerUnit, bill_month := "December 2023",
    due_date := "2024-01-01", status := "overdue",
    created_at := 0, updated_at := 0 }

/-- C8: the customer dashboard's outstanding figures are computed over bills
with status exactly `'pending'`: a bill with status `'overdue'` is not in
`pendingBills` (the list that both drives the "Outstanding Bills" count and
populates the payment dialog's bill selector, so it cannot be selected for
payment), and adding it to the bill list changes neither `pendingBills` nor
`totalOutstanding`. -/
theorem overdue_bills_excluded (bills : List Bill) (b : Bill)
    (h : b.status = "overdue") :
    b ∉ pendingBills bills ∧
    pendingBills (bills ++ [b]) = pendingBills bills ∧
    totalOutstanding (bills ++ [b]) = totalOutstanding bills := by
  have hb : ¬ (b.status = "pending") := by rw [h]; simp
  have h2 : pendingBills (bills ++ [b]) = pendingBills bills := by
    simp [pendingBills, List.filter_append, hb]
  refine ⟨?_, h2, ?_⟩
  · intro hmem
    rw [pendingBills, List.mem_filter] at hmem
    exact hb (by simpa using hmem.2)
  · rw [totalOutstanding, totalOutstanding, h2]

theorem overdue_bills_excluded_witness :
    overdueBill.status = "overdue" ∧
    (overdueBill ∉ pendingBills [scenarioBill] ∧
      pendingBills ([scenarioBill] ++ [overdueBill]) = pendingBills [scenarioBill] ∧
      totalOutstanding ([scenarioBill] ++ [overdueBill])
        = totalOutstanding [scenarioBill]) :=
  ⟨by decide, overdue_bills_excluded [scenarioBill] overdueBill (by decide)⟩

/-- Helper for C9: the revenue fold is the sum of the `amount` fields. -/
theorem foldl_add_amount (ps : List Payment) (init : Int) :
    ps.foldl (fun sum payment => sum + payment.amount) init
      = init + (ps.map Payment.amount).sum := by
  induction ps generalizing init with
  | nil => simp
  | cons p ps ih =>
      rw [List.foldl_cons, ih, List.map_cons, List.sum_cons]
      ring

/-- C9: the admin dashboard's "Total Revenue" figure sums the `amount` field
over every payment row with no regard to payment status: it equals the sum of
all amounts, appending a payment adds its amount whatever its status is, and
rewriting every payment's status to any fixed value leaves the figure
unchanged. -/
theorem totalRevenue_ignores_status (customers : List Profile)
    (bl : List Bill) (ps : List Payment) (cs : List Complaint)
    (p : Payment) (st : String) :
    (stats customers bl ps cs).totalRevenue = (ps.map Payment.amount).sum ∧
    (stats customers bl (ps ++ [p]) cs).totalRevenue
      = (stats customers bl ps cs).totalRevenue + p.amount ∧
    (stats customers bl (ps.map (fun q => { q with status := st })) cs).totalRevenue
      = (stats customers bl ps cs).totalRevenue := by
  refine ⟨?_, ?_, ?_⟩
  · rw [stats]
    simpa using foldl_add_amount ps 0
  · rw [stats, stats]
    simp only [foldl_add_amount]
    simp
  · rw [stats, stats]
    simp only [foldl_add_amount, List.map_map]
    rfl
